import Mathlib

/-!
# Verification of the Rental marketplace auth/session and UI contracts

Shallow embedding of the repository's credential verification
(`src/app/api/auth/[...nextauth]/route.ts`), signup and profile procedures
(`src/server/routers/auth.ts`, `src/server/routers/user.ts`), the tRPC
middleware (`src/server/trpc.ts`), the phone-number input
(`src/components/ui/PhoneInput.tsx`) and the listing wizard
(`src/app/lend/page.tsx`).

Timestamps and dates are modelled as `Nat`, prices as `ℚ`.  The database is a
list of `User` rows; Prisma's `findUnique`/`create`/`update` become total
functions on that list.
-/

namespace Rental

/-- A row of the `User` table.  Columns per the NextAuth base model plus the
migration `ALTER TABLE "User" ADD COLUMN birthday, createdAt, password,
phoneNumber, updatedAt` (prisma migration in the repo).  `password` is the
stored bcrypt hash, `none` for OAuth-only accounts. -/
structure User where
  id : String
  email : String
  password : Option String
  name : Option String
  image : Option String
  emailVerified : Option Nat
  birthday : Option Nat
  phoneNumber : Option String
  createdAt : Nat
  updatedAt : Nat
deriving Repr, DecidableEq

/-- The user database, one entry per row. -/
abbrev DB := List User

/-- `db.user.findUnique({ where: { email } })`: the `email` column is unique,
so the first match is the unique match. -/
def findUserByEmail (db : DB) (email : String) : Option User :=
  db.find? (fun u => u.email == email)

/-- `db.user.findUnique({ where: { id } })`. -/
def findUserById (db : DB) (id : String) : Option User :=
  db.find? (fun u => u.id == id)

/-- Model of the external `bcryptjs` `hash` function (the repository calls
`hash(password, 10)`): an injective function of the plaintext.  Treating the
salted hash as deterministic and collision-free is the library's documented
contract; nothing in the repository depends on more. -/
def bcryptHash (p : String) : String := "$2b$10$" ++ p

/-- Model of the external `bcryptjs` `compare` function: succeeds exactly when
the stored hash is the hash of the supplied plaintext. -/
def bcryptCompare (plain stored : String) : Bool :=
  stored == bcryptHash plain

/-- The credentials posted to the `CredentialsProvider` login form. -/
structure Credentials where
  email : String
  password : String
deriving Repr, DecidableEq

/-- The identity record returned by a successful `authorize`
(route.ts lines 505-512): id, email, name, image, birthday, phoneNumber —
and nothing else. -/
structure AuthUser where
  id : String
  email : String
  name : Option String
  image : Option String
  birthday : Option Nat
  phoneNumber : Option String
deriving Repr, DecidableEq

/-- Outcome of `authorize`, at the granularity of the source's control flow.
The first three constructors all `return null` in the source; `success`
returns the identity object.  The branch distinction exists only in the
server's `console.warn` side channel, never in the returned value. -/
inductive AuthResult where
  | missingCredentials
  | userNotFound
  | invalidPassword
  | success (u : AuthUser)
deriving Repr, DecidableEq

/-- What the caller (NextAuth, and through it the login page) observes:
`null` for every failure branch, the identity object on success. -/
def AuthResult.toCaller : AuthResult → Option AuthUser
  | .success u => some u
  | _ => none

/-- `authorize(credentials)` from route.ts lines 463-513.
Step 0: `!credentials?.email || !credentials?.password` (JS falsy: the empty
string counts as missing).  Step 1/2: `findUnique` by email, `null` when
absent.  Step 3: `typedUser.password && compare(...)` — an account with no
stored hash (`password` null) short-circuits to the same failing branch as a
mismatching password.  Step 4: return the identity object. -/
def authorize (db : DB) (c : Credentials) : AuthResult :=
  if c.email = "" ∨ c.password = "" then
    .missingCredentials
  else
    match findUserByEmail db c.email with
    | none => .userNotFound
    | some u =>
        match u.password with
        | none => .invalidPassword
        | some stored =>
            if bcryptCompare c.password stored then
              .success ⟨u.id, u.email, u.name, u.image, u.birthday, u.phoneNumber⟩
            else
              .invalidPassword

/-! ## Session token issuance (route.ts callbacks, lines 541-579) -/

/-- The JWT carried by the session cookie.  `sub` is the standard subject
claim; the remaining fields are the custom claims the `jwt` callback copies
from the `authorize` result. -/
structure Token where
  sub : Option String
  id : Option String
  email : Option String
  name : Option String
  image : Option String
  birthday : Option Nat
  phoneNumber : Option String
deriving Repr, DecidableEq

/-- The token a fresh login starts from, before the `jwt` callback runs. -/
def Token.initial : Token := ⟨none, none, none, none, none, none, none⟩

/-- The `jwt` callback (route.ts lines 541-555): when a `user` object is
present (i.e. at issuance, right after a successful `authorize` or OAuth
handshake) every identity and profile-completeness field is denormalized onto
the token; on later invocations (`user` absent) the token passes through
unchanged. -/
def jwtCallback (token : Token) (user : Option AuthUser) : Token :=
  match user with
  | none => token
  | some u =>
      { token with
        id := some u.id
        email := some u.email
        name := u.name
        image := u.image
        birthday := u.birthday
        phoneNumber := u.phoneNumber }

/-- The client-visible `session.user` object. -/
structure SessionUser where
  id : Option String
  email : Option String
  name : Option String
  image : Option String
  birthday : Option Nat
  phoneNumber : Option String
deriving Repr, DecidableEq

/-- The session object handed to tRPC context and the client. -/
structure Session where
  user : Option SessionUser
deriving Repr, DecidableEq

/-- The `session` callback (route.ts lines 564-578): the session user is
populated purely from the token's claims — never by re-querying the
database. -/
def sessionCallback (token : Token) : Session :=
  { user := some
      { id := token.sub <|> token.id
        email := token.email
        name := token.name
        image := token.image
        birthday := token.birthday
        phoneNumber := token.phoneNumber } }

/-- A full credential login: run `authorize`, and on success mint a token via
the `jwt` callback (the JWT session strategy). -/
def loginIssueToken (db : DB) (c : Credentials) : Option Token :=
  match authorize db c with
  | .success u => some (jwtCallback Token.initial (some u))
  | _ => none

/-! ## Signup validation (`src/lib/validators/authSchema.ts`) -/

/-- The raw signup form payload, before `signupSchema` parses it. -/
structure RawSignup where
  email : String
  password : String
  name : String
  birthday : Option String
  phoneNumber : Option String
deriving Repr, DecidableEq

/-- Whether `s` contains two consecutive dots (the `(?!.*\.\.)` lookahead of
the zod email pattern). -/
def hasDoubleDot (s : String) : Bool :=
  (s.toList.zip s.toList.tail).any (fun p => p.1 == '.' && p.2 == '.')

/-- Characters allowed in the local part of an email (39 is the apostrophe,
U+0027, which the pattern admits). -/
def emailLocalChar (c : Char) : Bool :=
  c.isAlphanum || c == '_' || c.toNat == 39 || c == '+' || c == '-' || c == '.'

/-- Characters allowed as the final character of the local part. -/
def emailLocalEnd (c : Char) : Bool :=
  c.isAlphanum || c == '_' || c == '+' || c == '-'

/-- A domain label before the TLD: `[A-Za-z0-9][A-Za-z0-9-]*`. -/
def emailLabelOk (l : List Char) : Bool :=
  match l with
  | [] => false
  | c :: rest => c.isAlphanum && rest.all (fun d => d.isAlphanum || d == '-')

/-- Model of zod's `z.string().email()` pattern
`^(?!\.)(?!.*\.\.)([A-Za-z0-9_'+\-\.]*)[A-Za-z0-9_+-]@([A-Za-z0-9][A-Za-z0-9\-]*\.)+[A-Za-z]\x7b2,\x7d$`:
no leading dot, no double dot, a non-empty local part over the allowed
alphabet ending in a non-dot character, an `@`, then one or more labels and a
purely alphabetic TLD of length at least two. -/
def isValidEmail (s : String) : Bool :=
  let cs := s.toList
  match cs.head? with
  | none => false
  | some c0 =>
      c0 != '.' && !hasDoubleDot s &&
      (let localPart := cs.takeWhile (fun c => c != '@')
       let rest := cs.dropWhile (fun c => c != '@')
       match rest with
       | '@' :: domain =>
           !localPart.isEmpty &&
           localPart.all emailLocalChar &&
           (match localPart.getLast? with
            | some cl => emailLocalEnd cl
            | none => false) &&
           !domain.contains '@' &&
           (let labels := (String.mk domain).splitOn "."
            match labels.reverse with
            | [] => false
            | tld :: prior =>
                !prior.isEmpty &&
                tld.length ≥ 2 && tld.toList.all Char.isAlpha &&
                prior.all (fun l => emailLabelOk l.toList))
       | _ => false)

/-- Modelled from the library contract of the JS `Date` constructor used by
`z.coerce.date()`: parses an ISO `YYYY-MM-DD` string to a numeric day code,
`none` for anything malformed (an invalid `Date`). -/
def jsParseDate (s : String) : Option Nat :=
  match s.splitOn "-" with
  | [y, m, d] =>
      if y.length == 4 && m.length == 2 && d.length == 2 &&
         y.toList.all Char.isDigit && m.toList.all Char.isDigit &&
         d.toList.all Char.isDigit &&
         1 ≤ m.toNat! && m.toNat! ≤ 12 && 1 ≤ d.toNat! && d.toNat! ≤ 31 then
        some (y.toNat! * 10000 + m.toNat! * 100 + d.toNat!)
      else none
  | _ => none

/-- Per-field issue messages for the `email` field of `signupSchema`. -/
def emailIssues (e : String) : List String :=
  if isValidEmail e then [] else ["Invalid email address."]

/-- Per-field issue messages for the `password` field of `signupSchema`
(`min(8)`, `max(100)`). -/
def passwordIssues (p : String) : List String :=
  (if p.length < 8 then ["Password must be at least 8 characters long."] else []) ++
  (if p.length > 100 then ["Password cannot exceed 100 characters."] else [])

/-- Per-field issue messages for the `name` field of `signupSchema`
(`min(2)`, `max(50)`). -/
def nameIssues (n : String) : List String :=
  (if n.length < 2 then ["Name must be at least 2 characters long."] else []) ++
  (if n.length > 50 then ["Name cannot exceed 50 characters."] else [])

/-- Per-field issue messages for the optional `birthday` field
(`z.string().optional().pipe(z.coerce.date().optional())`). -/
def birthdayIssues (b : Option String) : List String :=
  match b with
  | none => []
  | some s => match jsParseDate s with
              | some _ => []
              | none => ["Invalid date"]

/-- The result of `ZodError.flatten()`: a structured list of messages per
field (`fieldErrors`), exactly what the tRPC `errorFormatter` forwards as
`zodError`. -/
structure FlatFieldErrors where
  email : List String
  password : List String
  name : List String
  birthday : List String
  phoneNumber : List String
deriving Repr, DecidableEq

/-- Whether the flattened error object carries no issue at all. -/
def FlatFieldErrors.isEmpty (f : FlatFieldErrors) : Bool :=
  f.email.isEmpty && f.password.isEmpty && f.name.isEmpty &&
  f.birthday.isEmpty && f.phoneNumber.isEmpty

/-- All issues of `signupSchema.safeParse`, grouped per field.  zod validates
every field of an object and collects all issues (the `phoneNumber` field —
`z.string().optional().nullable()` — has no constraint). -/
def signupSchemaIssues (raw : RawSignup) : FlatFieldErrors :=
  { email := emailIssues raw.email
    password := passwordIssues raw.password
    name := nameIssues raw.name
    birthday := birthdayIssues raw.birthday
    phoneNumber := [] }

/-- The parsed payload handed to the `signup` mutation body after
`signupSchema` succeeds: the birthday string has been coerced to a date. -/
structure SignupInput where
  email : String
  password : String
  name : String
  birthday : Option Nat
  phoneNumber : Option String
deriving Repr, DecidableEq

/-- `signupSchema.parse`: either the structured per-field error list or the
parsed input. -/
def signupSchemaParse (raw : RawSignup) : Except FlatFieldErrors SignupInput :=
  let issues := signupSchemaIssues raw
  if issues.isEmpty then
    .ok { email := raw.email
          password := raw.password
          name := raw.name
          birthday := raw.birthday.bind jsParseDate
          phoneNumber := raw.phoneNumber }
  else
    .error issues

/-! ## The `auth.signup` mutation body (`src/server/routers/auth.ts`) -/

/-- The `user` object of a successful signup response (auth.ts lines 76-83). -/
structure SignupUserView where
  id : String
  email : String
  name : Option String
  birthday : Option Nat
  phoneNumber : Option String
  createdAt : Nat
deriving Repr, DecidableEq

/-- A successful signup response: `message` plus the created identity. -/
structure SignupResult where
  message : String
  user : SignupUserView
deriving Repr, DecidableEq

/-- The error thrown by the signup body when the email is already registered:
`throw new Error('User with this email already exists.')`. -/
inductive SignupError where
  | duplicateEmail (message : String)
deriving Repr, DecidableEq

/-- The row `db.user.create` persists in the `signup` mutation body (auth.ts
lines 48-67): the hashed password, `emailVerified: null`, and the
`createdAt`/`updatedAt` columns maintained by Prisma.  `newId` and `now`
stand for the id Prisma generates and the clock. -/
def signupRow (input : SignupInput) (newId : String) (now : Nat) : User :=
  { id := newId
    email := input.email
    password := some (bcryptHash input.password)
    name := some input.name
    image := none
    emailVerified := none
    birthday := input.birthday
    phoneNumber := input.phoneNumber
    createdAt := now
    updatedAt := now }

/-- The `signup` mutation body (auth.ts lines 27-85), after input validation:
(1) `findUnique` by email — if a row exists, throw the duplicate-account
error before any write; (2) hash the password and persist `signupRow`;
(3) return the message and the selected non-sensitive fields. -/
def signup (db : DB) (input : SignupInput) (newId : String) (now : Nat) :
    Except SignupError SignupResult × DB :=
  match findUserByEmail db input.email with
  | some _ => (.error (.duplicateEmail "User with this email already exists."), db)
  | none =>
      let newUser : User := signupRow input newId now
      (.ok { message := "Account created successfully!"
             user := { id := newUser.id
                       email := newUser.email
                       name := newUser.name
                       birthday := newUser.birthday
                       phoneNumber := newUser.phoneNumber
                       createdAt := newUser.createdAt } },
       db ++ [newUser])

/-! ## The tRPC layer (`src/server/trpc.ts`) -/

/-- tRPC error codes used by this backend. -/
inductive TRPCCode where
  | badRequest
  | unauthorized
  | internalServerError
deriving Repr, DecidableEq

/-- The client-visible error payload after the `errorFormatter` (trpc.ts
lines 62-76) ran: code, message, and — exactly when the error is a
`BAD_REQUEST` caused by a `ZodError` — the flattened per-field list. -/
structure TRPCErrorShape where
  code : TRPCCode
  message : String
  zodError : Option FlatFieldErrors
deriving Repr, DecidableEq

/-- Input validation failure as formatted for the client: tRPC raises
`BAD_REQUEST` with the `ZodError` as cause, and the `errorFormatter` attaches
`error.cause.flatten()` as `zodError`. -/
def zodFormattedError (issues : FlatFieldErrors) : TRPCErrorShape :=
  { code := .badRequest, message := "Invalid input", zodError := some issues }

/-- The full `auth.signup` procedure: `publicProcedure.input(signupSchema)`
parses first (no database access on failure), then the mutation body runs;
a duplicate email surfaces as a plain thrown `Error`, which tRPC wraps as
`INTERNAL_SERVER_ERROR` with the thrown message and no `zodError`. -/
def signupProc (db : DB) (raw : RawSignup) (newId : String) (now : Nat) :
    Except TRPCErrorShape SignupResult × DB :=
  match signupSchemaParse raw with
  | .error issues => (.error (zodFormattedError issues), db)
  | .ok input =>
      match signup db input newId now with
      | (.error (.duplicateEmail msg), db') =>
          (.error { code := .internalServerError, message := msg, zodError := none }, db')
      | (.ok res, db') => (.ok res, db')

/-- The `protectedProcedure` middleware (trpc.ts lines 103-129):
`if (!ctx.session || !ctx.session.user) throw UNAUTHORIZED "Not
authenticated."`; only otherwise does the procedure body run. -/
def protectedCall {A : Type} (session : Option Session)
    (body : DB → Except TRPCErrorShape A × DB) (db : DB) :
    Except TRPCErrorShape A × DB :=
  match session with
  | none => (.error { code := .unauthorized, message := "Not authenticated.", zodError := none }, db)
  | some s =>
      match s.user with
      | none => (.error { code := .unauthorized, message := "Not authenticated.", zodError := none }, db)
      | some _ => body db

/-! ## The `user.updateProfile` mutation (`src/server/routers/user.ts`) -/

/-- The validated `updateProfile` input.  Each field is doubly optional,
mirroring Prisma/zod: the outer `none` means "not provided, leave the column
as is" (JS `undefined`), an inner `none` means "set the column to null". -/
structure UpdateProfileInput where
  name : Option String
  birthday : Option (Option Nat)
  phoneNumber : Option (Option String)
deriving Repr, DecidableEq

/-- Applying the `data` object of `db.user.update` (user.ts lines 82-89) to
the matched row.  A field whose input is `undefined` is left untouched;
`updatedAt` is maintained automatically by Prisma's `@updatedAt`. -/
def applyProfileUpdate (u : User) (inp : UpdateProfileInput) (now : Nat) : User :=
  { u with
    name := match inp.name with | none => u.name | some n => some n
    birthday := match inp.birthday with | none => u.birthday | some b => b
    phoneNumber := match inp.phoneNumber with | none => u.phoneNumber | some p => p
    updatedAt := now }

/-- The fields selected back by `updateProfile` (user.ts lines 90-97). -/
structure UpdatedUserView where
  id : String
  name : Option String
  email : String
  birthday : Option Nat
  phoneNumber : Option String
  updatedAt : Nat
deriving Repr, DecidableEq

/-- A successful `updateProfile` response. -/
structure UpdateProfileResult where
  message : String
  user : UpdatedUserView
deriving Repr, DecidableEq

/-- `db.user.update({ where: { id }, data, select })`: the unique row whose
`id` matches is rewritten by `applyProfileUpdate`; every other row is
untouched.  If no row matches, Prisma throws (record-not-found) and nothing
is written. -/
def dbUpdateUser (db : DB) (uid : String) (inp : UpdateProfileInput) (now : Nat) :
    Except TRPCErrorShape UpdatedUserView × DB :=
  match findUserById db uid with
  | none =>
      (.error { code := .internalServerError, message := "Record to update not found."
                zodError := none }, db)
  | some u =>
      let u' := applyProfileUpdate u inp now
      (.ok { id := u'.id, name := u'.name, email := u'.email, birthday := u'.birthday
             phoneNumber := u'.phoneNumber, updatedAt := u'.updatedAt },
       db.map (fun v => if v.id = uid then applyProfileUpdate v inp now else v))

/-- The `updateProfile` mutation body (user.ts lines 71-103): read the user id
from the session (`if (!userId) throw` — JS falsy, so a missing or empty id
fails), update the row and return the message plus the selected fields. -/
def updateProfileBody (session : Session) (inp : UpdateProfileInput) (now : Nat)
    (db : DB) : Except TRPCErrorShape UpdateProfileResult × DB :=
  match session.user.bind SessionUser.id with
  | none => (.error { code := .internalServerError, message := "User not authenticated."
                      zodError := none }, db)
  | some uid =>
      if uid = "" then
        (.error { code := .internalServerError, message := "User not authenticated."
                  zodError := none }, db)
      else
        match dbUpdateUser db uid inp now with
        | (.error e, db') => (.error e, db')
        | (.ok v, db') => (.ok { message := "Profile updated successfully!", user := v }, db')

/-- The full `user.updateProfile` procedure: `protectedProcedure` middleware
then the mutation body. -/
def updateProfileProc (session : Option Session) (inp : UpdateProfileInput)
    (db : DB) (now : Nat) : Except TRPCErrorShape UpdateProfileResult × DB :=
  protectedCall session
    (fun db' =>
      match session with
      | none => (.error { code := .unauthorized, message := "Not authenticated.", zodError := none }, db')
      | some s => updateProfileBody s inp now db')
    db

/-- The user id the `updateProfile` body will act on: the session's user id,
unless the middleware rejects the context (no session / no user) or the body
rejects a falsy (empty) id — in which case nothing is written. -/
def effectiveUserId (session : Option Session) : Option String :=
  match (session.bind Session.user).bind SessionUser.id with
  | none => none
  | some uid => if uid = "" then none else some uid

/-! ## The `user.getProfile` query (`src/server/routers/user.ts` lines 21-49) -/

/-- The fields `getProfile` selects: id, name, email, image, birthday,
phoneNumber, createdAt — explicitly not `password`. -/
structure ProfileView where
  id : String
  name : Option String
  email : String
  image : Option String
  birthday : Option Nat
  phoneNumber : Option String
  createdAt : Nat
deriving Repr, DecidableEq

/-- `getProfile`: `findUnique` by id with the select above, `null` when the
row is absent. -/
def getProfile (db : DB) (userId : String) : Option ProfileView :=
  match findUserById db userId with
  | none => none
  | some u =>
      some { id := u.id, name := u.name, email := u.email, image := u.image
             birthday := u.birthday, phoneNumber := u.phoneNumber
             createdAt := u.createdAt }

/-! ## Serialized shapes of the responses (for the no-password-leak claim) -/

/-- A serialized JSON-ish value. -/
inductive JVal where
  | s (v : String)
  | n (v : Nat)
  | nul
deriving Repr, DecidableEq

/-- `Option` fields serialize to `null` or the value. -/
def JVal.optStr : Option String → JVal
  | none => .nul
  | some v => .s v

/-- `Option` date fields serialize to `null` or the value. -/
def JVal.optNat : Option Nat → JVal
  | none => .nul
  | some v => .n v

/-- The keys and values of the object literal a successful `authorize`
returns (route.ts lines 505-512). -/
def serializeAuthUser (u : AuthUser) : List (String × JVal) :=
  [("id", .s u.id), ("email", .s u.email), ("name", .optStr u.name),
   ("image", .optStr u.image), ("birthday", .optNat u.birthday),
   ("phoneNumber", .optStr u.phoneNumber)]

/-- What the caller of `authorize` receives, serialized: nothing on any
failure branch, the identity object on success. -/
def serializeAuthResult (r : AuthResult) : List (String × JVal) :=
  match r.toCaller with
  | none => []
  | some u => serializeAuthUser u

/-- The keys and values of the signup response (auth.ts lines 74-84):
`message` plus the selected `user` sub-object, flattened as
`user.<key>` entries. -/
def serializeSignupResult (r : SignupResult) : List (String × JVal) :=
  [("message", .s r.message),
   ("user.id", .s r.user.id), ("user.email", .s r.user.email),
   ("user.name", .optStr r.user.name), ("user.birthday", .optNat r.user.birthday),
   ("user.phoneNumber", .optStr r.user.phoneNumber),
   ("user.createdAt", .n r.user.createdAt)]

/-- The keys and values of the `getProfile` response (user.ts select,
lines 27-36), or nothing when the profile is absent. -/
def serializeProfile (p : Option ProfileView) : List (String × JVal) :=
  match p with
  | none => []
  | some v =>
      [("id", .s v.id), ("name", .optStr v.name), ("email", .s v.email),
       ("image", .optStr v.image), ("birthday", .optNat v.birthday),
       ("phoneNumber", .optStr v.phoneNumber), ("createdAt", .n v.createdAt)]

/-! ## The phone-number input (`src/components/ui/PhoneInput.tsx`) -/

/-- `getDigits` (PhoneInput.tsx line 35): `val.replace(/\D/g, '')`. -/
def getDigits (s : String) : List Char :=
  s.toList.filter Char.isDigit

/-- `raw.replace(/^\+1\s?/, '')` (PhoneInput.tsx line 41): drop one leading
`+1`, and one whitespace character right after it if present. -/
def dropUSCode (s : String) : String :=
  match s.toList with
  | '+' :: '1' :: c :: rest =>
      if c.isWhitespace then String.mk rest else String.mk (c :: rest)
  | ['+', '1'] => ""
  | _ => s

/-- `handleChange` (PhoneInput.tsx lines 38-45): strip the `+1` prefix,
keep only digits, truncate to ten, and emit `""` or `"+1 "` plus the
digits. -/
def phoneHandleChange (raw : String) : String :=
  let digits := getDigits (dropUSCode raw)
  let digits := if digits.length > 10 then digits.take 10 else digits
  if digits.isEmpty then "" else "+1 " ++ String.mk digits

/-! ## The listing wizard (`src/app/lend/page.tsx`) -/

/-- The `Step` union type (lend/page.tsx line 93). -/
inductive Step where
  | welcome
  | categories
  | itemDetails
  | pricing
  | photos
  | location
  | review
deriving Repr, DecidableEq

/-- The `steps` array (lend/page.tsx line 238), fixing the step order. -/
def stepsOrder : List Step :=
  [.welcome, .categories, .itemDetails, .pricing, .photos, .location, .review]

/-- `steps.indexOf(currentStep)`. -/
def stepIdx : Step → Nat
  | .welcome => 0
  | .categories => 1
  | .itemDetails => 2
  | .pricing => 3
  | .photos => 4
  | .location => 5
  | .review => 6

/-- Model of the JS `String.prototype.trim()` used by the item-details gate:
strip leading and trailing whitespace. -/
def jsTrim (s : String) : String :=
  String.mk (((s.toList.dropWhile Char.isWhitespace).reverse.dropWhile
    Char.isWhitespace).reverse)

/-- A selected pickup location (lat, lng, address). -/
structure Location where
  lat : ℚ
  lng : ℚ
  address : String
deriving Repr, DecidableEq

/-- The wizard's client state: the current step and every form field.
`rentPerDay` is the value of the price number input: an HTML
`input type=number` sanitizes its value to a valid floating-point string or
the empty string, modelled as `Option ℚ` (`none` = empty).  `photoSlots` are
the six upload slots (file name or empty). -/
structure WizardState where
  step : Step
  selectedCategories : List String
  itemName : String
  description : String
  rentPerDay : Option ℚ
  photoSlots : List (Option String)
  location : Option Location
deriving Repr, DecidableEq

/-- `uploadedCount = photoSlots.filter(Boolean).length`. -/
def uploadedCount (s : WizardState) : Nat :=
  (s.photoSlots.filterMap id).length

/-- Whether the current step's Continue control is enabled — the negation of
each step's `disabled` expression: categories needs a selection, item details
need non-blank (trimmed) name and description, pricing needs a parsed value
strictly above zero, photos needs at least three uploads, location needs a
pin.  The welcome step's button is always enabled; the review step has no
Continue button at all. -/
def continueEnabled (s : WizardState) : Bool :=
  match s.step with
  | .welcome => true
  | .categories => !s.selectedCategories.isEmpty
  | .itemDetails => !(jsTrim s.itemName).isEmpty && !(jsTrim s.description).isEmpty
  | .pricing => match s.rentPerDay with
                | none => false
                | some q => decide (0 < q)
  | .photos => decide (3 ≤ uploadedCount s)
  | .location => s.location.isSome
  | .review => false

/-- The possible user/browser events.  Field-editing events are tied to the
step whose UI renders the control; `geoLocate` models the asynchronous
geolocation callback (it can resolve at any step and only ever sets a
location), and `refreshAddress` the asynchronous reverse-geocode callback
(`setLocation(prev => prev ? {...prev, address} : null)`). -/
inductive WEvent where
  | next
  | prev
  | toggleCategory (c : String)
  | setItemName (v : String)
  | setDescription (v : String)
  | setRent (v : Option ℚ)
  | setPhoto (i : Fin 6) (f : String)
  | removePhoto (i : Fin 6)
  | pickLocation (l : Location)
  | geoLocate (l : Location)
  | refreshAddress (a : String)
  | submit

/-- `handleCategoryToggle` (lend/page.tsx lines 184-190). -/
def toggleCat (cats : List String) (c : String) : List String :=
  if cats.contains c then cats.filter (fun x => x ≠ c) else cats ++ [c]

/-- The initial wizard state (all `useState` initial values). -/
def initWizard : WizardState :=
  { step := .welcome, selectedCategories := [], itemName := "", description := ""
    rentPerDay := none, photoSlots := List.replicate 6 none, location := none }

/-- One step of the wizard.  `next` advances exactly one position when the
gate is enabled and the step is not the last (`nextStep`, lines 239-244);
`prev` goes back one (`prevStep`, lines 245-250); editing events apply only
while the owning step is rendered; `submit` (the review form's
`handleSubmit`, lines 208-235) resets every field to its initial value. -/
def stepEvent (s : WizardState) (e : WEvent) : WizardState :=
  match e with
  | .next =>
      if stepIdx s.step < 6 ∧ continueEnabled s then
        { s with step := stepsOrder.getD (stepIdx s.step + 1) s.step }
      else s
  | .prev =>
      if 0 < stepIdx s.step then
        { s with step := stepsOrder.getD (stepIdx s.step - 1) s.step }
      else s
  | .toggleCategory c =>
      if s.step = .categories then
        { s with selectedCategories := toggleCat s.selectedCategories c }
      else s
  | .setItemName v => if s.step = .itemDetails then { s with itemName := v } else s
  | .setDescription v => if s.step = .itemDetails then { s with description := v } else s
  | .setRent v => if s.step = .pricing then { s with rentPerDay := v } else s
  | .setPhoto i f =>
      if s.step = .photos then { s with photoSlots := s.photoSlots.set i (some f) } else s
  | .removePhoto i =>
      if s.step = .photos then { s with photoSlots := s.photoSlots.set i none } else s
  | .pickLocation l => if s.step = .location then { s with location := some l } else s
  | .geoLocate l => { s with location := some l }
  | .refreshAddress a =>
      { s with location := s.location.map (fun l => { l with address := a }) }
  | .submit => if s.step = .review then initWizard else s

/-- The states the wizard can actually be in, starting from the initial
render. -/
inductive ReachableW : WizardState → Prop where
  | init : ReachableW initWizard
  | step {s : WizardState} (e : WEvent) : ReachableW s → ReachableW (stepEvent s e)

/-- `renderCurrentStep` (lend/page.tsx lines 764-783): the switch renders the
single view of the current step (`default` falls back to the welcome view). -/
def renderCurrentStep (s : WizardState) : Step :=
  match s.step with
  | .welcome => .welcome
  | .categories => .categories
  | .itemDetails => .itemDetails
  | .pricing => .pricing
  | .photos => .photos
  | .location => .location
  | .review => .review

/-- The list of step views present in the rendered page: always exactly the
one produced by the switch. -/
def renderedViews (s : WizardState) : List Step :=
  [renderCurrentStep s]

/-- The required-field condition contributed by the step at position `k` of
the order (the welcome and review steps require nothing): at least one
category, non-blank trimmed name and description, a parsed price strictly
above zero, at least three photos, a chosen location. -/
def dataOk (s : WizardState) : Nat → Prop
  | 1 => s.selectedCategories ≠ []
  | 2 => ¬ (jsTrim s.itemName).isEmpty ∧ ¬ (jsTrim s.description).isEmpty
  | 3 => ∃ q, s.rentPerDay = some q ∧ 0 < q
  | 4 => 3 ≤ uploadedCount s
  | 5 => s.location.isSome
  | _ => True

/-- All steps strictly before the current one have their required fields
populated: what the claim calls "all prior steps' required fields". -/
def priorStepsOk (s : WizardState) : Prop :=
  ∀ k, k < stepIdx s.step → dataOk s k

/-- Run the wizard from its initial render through a list of events. -/
def runWizard (es : List WEvent) : WizardState :=
  es.foldl stepEvent initWizard

/-- A complete demo interaction: pick a category, fill in the item, price it
at 5, upload three photos, confirm the location, and reach the review
step. -/
def demoWizardEvents : List WEvent :=
  [.next, .toggleCategory "tools", .next,
   .setItemName "Drill", .setDescription "A cordless drill", .next,
   .setRent (some 5), .next,
   .setPhoto 0 "a.jpg", .setPhoto 1 "b.jpg", .setPhoto 2 "c.jpg", .next,
   .geoLocate ⟨1, 2, "10 Main St"⟩, .next]

/-! ## Theorems -/

/-- C10: For every input string, the phone-number input's normalization emits
either the empty string or `"+1 "` followed by between 1 and 10 digit
characters; all non-digit characters are stripped, the leading `+1` prefix is
removed before digit extraction, and digits beyond the tenth are truncated. -/
theorem phone_input_normalizes (raw : String) :
    (phoneHandleChange raw = "" ∧ getDigits (dropUSCode raw) = []) ∨
    (∃ d : List Char,
      phoneHandleChange raw = "+1 " ++ String.mk d ∧
      d = (getDigits (dropUSCode raw)).take 10 ∧
      1 ≤ d.length ∧ d.length ≤ 10 ∧ ∀ c ∈ d, c.isDigit) := by
  by_cases h : getDigits (dropUSCode raw) = []
  · left
    constructor
    · simp [phoneHandleChange, h]
    · exact h
  · right
    refine ⟨(getDigits (dropUSCode raw)).take 10, ?_, rfl, ?_, ?_, ?_⟩
    · unfold phoneHandleChange
      by_cases hlen : (getDigits (dropUSCode raw)).length > 10
      · have : (getDigits (dropUSCode raw)).take 10 ≠ [] := by
          simp [List.take_eq_nil_iff, h]
        simp only [hlen, if_pos, List.isEmpty_iff]
        simp [this]
      · have heq : (getDigits (dropUSCode raw)).take 10 = getDigits (dropUSCode raw) := by
          apply List.take_of_length_le
          omega
        simp only [hlen, if_neg, List.isEmpty_iff]
        rw [heq]
        simp [h]
    · have : (getDigits (dropUSCode raw)).take 10 ≠ [] := by
        simp [List.take_eq_nil_iff, h]
      have := List.length_pos.mpr this
      omega
    · have := List.length_take 10 (getDigits (dropUSCode raw))
      omega
    · intro c hc
      have hmem : c ∈ getDigits (dropUSCode raw) := List.take_subset _ _ hc
      exact List.of_mem_filter hmem

/-- Witness for C10 at the concrete input `"+1 (555) 123-4567 ext 89012"`. -/
theorem phone_input_normalizes_witness :
    (phoneHandleChange "+1 (555) 123-4567 ext 89012" = "" ∧
      getDigits (dropUSCode "+1 (555) 123-4567 ext 89012") = []) ∨
    (∃ d : List Char,
      phoneHandleChange "+1 (555) 123-4567 ext 89012" = "+1 " ++ String.mk d ∧
      d = (getDigits (dropUSCode "+1 (555) 123-4567 ext 89012")).take 10 ∧
      1 ≤ d.length ∧ d.length ≤ 10 ∧ ∀ c ∈ d, c.isDigit) :=
  phone_input_normalizes "+1 (555) 123-4567 ext 89012"

/-- C4: For every call to credential verification, `auth.signup` and
`user.getProfile`, the serialized response contains no `password` key (nor
any `user.password` key), whatever the input and whether the call succeeded
or failed. -/
theorem no_password_in_responses (db : DB) (c : Credentials) (input : SignupInput)
    (newId : String) (now : Nat) (userId : String) :
    ("password" ∉ (serializeAuthResult (authorize db c)).map Prod.fst) ∧
    (∀ res db', signup db input newId now = (Except.ok res, db') →
      "password" ∉ (serializeSignupResult res).map Prod.fst ∧
      "user.password" ∉ (serializeSignupResult res).map Prod.fst) ∧
    ("password" ∉ (serializeProfile (getProfile db userId)).map Prod.fst) := by
  refine ⟨?_, ?_, ?_⟩
  · cases h : authorize db c with
    | success u => simp [serializeAuthResult, AuthResult.toCaller, serializeAuthUser]
    | missingCredentials => simp [serializeAuthResult, AuthResult.toCaller]
    | userNotFound => simp [serializeAuthResult, AuthResult.toCaller]
    | invalidPassword => simp [serializeAuthResult, AuthResult.toCaller]
  · intro res db' hres
    constructor <;> simp [serializeSignupResult]
  · cases h : getProfile db userId with
    | none => simp [serializeProfile]
    | some v => simp [serializeProfile]

/-- Witness for C4 on a concrete database, credentials, signup input and
profile lookup. -/
theorem no_password_in_responses_witness :
    ("password" ∉ (serializeAuthResult (authorize [] ⟨"a@b.com", "pw"⟩)).map Prod.fst) ∧
    (∀ res db', signup [] ⟨"a@b.com", "Abcdefg1", "Ann", none, none⟩ "u1" 0 =
        (Except.ok res, db') →
      "password" ∉ (serializeSignupResult res).map Prod.fst ∧
      "user.password" ∉ (serializeSignupResult res).map Prod.fst) ∧
    ("password" ∉ (serializeProfile (getProfile [] "u1")).map Prod.fst) :=
  no_password_in_responses [] ⟨"a@b.com", "pw"⟩ ⟨"a@b.com", "Abcdefg1", "Ann", none, none⟩ "u1" 0 "u1"

/-- C6: Every protected procedure invoked in a context whose session is
absent or has no user fails with the uniform `UNAUTHORIZED`
"Not authenticated." error, for every possible body — so the body never runs
— and the database is returned unchanged; in particular this holds for the
`user.updateProfile` procedure. -/
theorem protected_call_unauthenticated {A : Type} (session : Option Session)
    (h : session = none ∨ ∃ s, session = some s ∧ s.user = none) :
    (∀ (body : DB → Except TRPCErrorShape A × DB) (db : DB),
      protectedCall session body db =
        (.error { code := .unauthorized, message := "Not authenticated.", zodError := none }, db)) ∧
    (∀ (inp : UpdateProfileInput) (db : DB) (now : Nat),
      updateProfileProc session inp db now =
        (.error { code := .unauthorized, message := "Not authenticated.", zodError := none }, db)) := by
  have hmain : ∀ {B : Type} (body : DB → Except TRPCErrorShape B × DB) (db : DB),
      protectedCall session body db =
        (.error { code := .unauthorized, message := "Not authenticated.", zodError := none }, db) := by
    intro B body db
    rcases h with h | ⟨s, hs, hu⟩
    · subst h; rfl
    · subst hs
      simp [protectedCall, hu]
  exact ⟨fun body db => hmain body db,
         fun inp db now => hmain _ db⟩

/-- Witness for C6: a context with a session that has no user. -/
theorem protected_call_unauthenticated_witness :
    (∀ (body : DB → Except TRPCErrorShape Nat × DB) (db : DB),
      protectedCall (some ⟨none⟩) body db =
        (.error { code := .unauthorized, message := "Not authenticated.", zodError := none }, db)) ∧
    (∀ (inp : UpdateProfileInput) (db : DB) (now : Nat),
      updateProfileProc (some ⟨none⟩) inp db now =
        (.error { code := .unauthorized, message := "Not authenticated.", zodError := none }, db)) :=
  protected_call_unauthenticated (some ⟨none⟩) (Or.inr ⟨⟨none⟩, rfl, rfl⟩)

/-- C2: A signup whose email already matches an existing row fails with the
duplicate-account error and leaves the user table exactly as it was (no
partial write); and after any successful signup, a second signup with the
same email always fails that way and creates no additional row. -/
theorem signup_duplicate_email (db : DB) (input : SignupInput) (newId : String)
    (now : Nat) (hdup : ∃ u ∈ db, u.email = input.email) :
    (signup db input newId now =
      (.error (.duplicateEmail "User with this email already exists."), db)) ∧
    (∀ (db0 : DB) (inp1 inp2 : SignupInput) (id1 id2 : String) (t1 t2 : Nat)
        (res : SignupResult) (db1 : DB),
      inp2.email = inp1.email →
      signup db0 inp1 id1 t1 = (.ok res, db1) →
      signup db1 inp2 id2 t2 =
        (.error (.duplicateEmail "User with this email already exists."), db1)) := by
  have dupFail : ∀ (d : DB) (inp : SignupInput) (i : String) (t : Nat),
      (∃ u ∈ d, u.email = inp.email) →
      signup d inp i t =
        (.error (.duplicateEmail "User with this email already exists."), d) := by
    intro d inp i t ⟨u, hu, he⟩
    have hsome : (findUserByEmail d inp.email).isSome := by
      rw [findUserByEmail, List.find?_isSome]
      exact ⟨u, hu, by simp [he]⟩
    rcases Option.isSome_iff_exists.mp hsome with ⟨v, hv⟩
    simp [signup, hv]
  refine ⟨dupFail db input newId now hdup, ?_⟩
  intro db0 inp1 inp2 id1 id2 t1 t2 res db1 hee hok
  have hnone : findUserByEmail db0 inp1.email = none := by
    cases hfind : findUserByEmail db0 inp1.email with
    | none => rfl
    | some v => simp [signup, hfind] at hok
  have hdb1 : ∃ u ∈ db1, u.email = inp2.email := by
    simp only [signup, hnone] at hok
    have h2 : db0 ++ [signupRow inp1 id1 t1] = db1 := congrArg Prod.snd hok
    refine ⟨signupRow inp1 id1 t1, ?_, ?_⟩
    · rw [← h2]; simp
    · simp [signupRow, hee]
  exact dupFail db1 inp2 id2 t2 hdb1

/-- Witness for C2: the duplicate is rejected on a concrete one-row table. -/
theorem signup_duplicate_email_witness :
    (signup [{ id := "u1", email := "a@b.com", password := none, name := none,
               image := none, emailVerified := none, birthday := none,
               phoneNumber := none, createdAt := 0, updatedAt := 0 }]
        ⟨"a@b.com", "Abcdefg1", "Ann", none, none⟩ "u2" 5 =
      (.error (.duplicateEmail "User with this email already exists."),
        [{ id := "u1", email := "a@b.com", password := none, name := none,
           image := none, emailVerified := none, birthday := none,
           phoneNumber := none, createdAt := 0, updatedAt := 0 }])) ∧
    (∀ (db0 : DB) (inp1 inp2 : SignupInput) (id1 id2 : String) (t1 t2 : Nat)
        (res : SignupResult) (db1 : DB),
      inp2.email = inp1.email →
      signup db0 inp1 id1 t1 = (.ok res, db1) →
      signup db1 inp2 id2 t2 =
        (.error (.duplicateEmail "User with this email already exists."), db1)) :=
  signup_duplicate_email _ ⟨"a@b.com", "Abcdefg1", "Ann", none, none⟩ "u2" 5
    (by decide)

/-- C5: A signup input violating a shape constraint (password length outside
8..100, name length outside 2..50, or a malformed email) fails during
validation — the database is returned untouched, so no account is created —
and the failure carries the structured per-field error list produced by
`ZodError.flatten`, with a message recorded under each violated field. -/
theorem signup_validation_rejects (db : DB) (raw : RawSignup) (newId : String)
    (now : Nat)
    (hbad : raw.password.length < 8 ∨ 100 < raw.password.length ∨
            raw.name.length < 2 ∨ 50 < raw.name.length ∨
            isValidEmail raw.email = false) :
    ∃ issues : FlatFieldErrors,
      signupProc db raw newId now = (.error (zodFormattedError issues), db) ∧
      (raw.password.length < 8 ∨ 100 < raw.password.length → issues.password ≠ []) ∧
      (raw.name.length < 2 ∨ 50 < raw.name.length → issues.name ≠ []) ∧
      (isValidEmail raw.email = false → issues.email ≠ []) := by
  have hne : (signupSchemaIssues raw).isEmpty = false := by
    rcases hbad with h | h | h | h | h
    case inl | inr.inl | inr.inr.inl | inr.inr.inr.inl =>
      simp [signupSchemaIssues, FlatFieldErrors.isEmpty, passwordIssues,
            nameIssues, emailIssues, h, Nat.not_lt.mpr (Nat.le_of_lt h)]
    case inr.inr.inr.inr =>
      simp [signupSchemaIssues, FlatFieldErrors.isEmpty, passwordIssues,
            nameIssues, emailIssues, h]
  refine ⟨signupSchemaIssues raw, ?_, ?_, ?_, ?_⟩
  · simp [signupProc, signupSchemaParse, hne]
  · rintro (h | h) <;>
      simp [signupSchemaIssues, passwordIssues, h, Nat.not_lt.mpr (Nat.le_of_lt h)]
  · rintro (h | h) <;>
      simp [signupSchemaIssues, nameIssues, h, Nat.not_lt.mpr (Nat.le_of_lt h)]
  · intro h
    simp [signupSchemaIssues, emailIssues, h]

/-- Witness for C5: a concrete signup payload with a short password, a short
name and a malformed email is rejected with messages on all three fields. -/
theorem signup_validation_rejects_witness :
    ∃ issues : FlatFieldErrors,
      signupProc [] ⟨"not-an-email", "short", "A", none, none⟩ "u1" 0 =
        (.error (zodFormattedError issues), []) ∧
      (("short" : String).length < 8 ∨ 100 < ("short" : String).length →
        issues.password ≠ []) ∧
      (("A" : String).length < 2 ∨ 50 < ("A" : String).length → issues.name ≠ []) ∧
      (isValidEmail "not-an-email" = false → issues.email ≠ []) :=
  signup_validation_rejects [] ⟨"not-an-email", "short", "A", none, none⟩ "u1" 0
    (Or.inl (by decide))

/-- C1 as stated is false: an OAuth-only account (no stored hash) fails
through the very same `invalidPassword` branch as a wrong password against a
credential account, and the caller receives the same `null` in both cases —
the two failures are not distinguishable and the OAuth-only failure *is* the
invalid-credentials outcome.  Concrete database: `oauth@x.com` has no hash,
`cred@x.com` stores the hash of `"Abcdefg1"`. -/
theorem oauth_only_login_counterexample :
    authorize
      [{ id := "u1", email := "oauth@x.com", password := none, name := none,
         image := none, emailVerified := none, birthday := none,
         phoneNumber := none, createdAt := 0, updatedAt := 0 },
       { id := "u2", email := "cred@x.com", password := some (bcryptHash "Abcdefg1"),
         name := none, image := none, emailVerified := none, birthday := none,
         phoneNumber := none, createdAt := 0, updatedAt := 0 }]
      ⟨"oauth@x.com", "whatever"⟩ = .invalidPassword ∧
    authorize
      [{ id := "u1", email := "oauth@x.com", password := none, name := none,
         image := none, emailVerified := none, birthday := none,
         phoneNumber := none, createdAt := 0, updatedAt := 0 },
       { id := "u2", email := "cred@x.com", password := some (bcryptHash "Abcdefg1"),
         name := none, image := none, emailVerified := none, birthday := none,
         phoneNumber := none, createdAt := 0, updatedAt := 0 }]
      ⟨"cred@x.com", "WrongPass"⟩ = .invalidPassword := by
  constructor <;> rfl

/-- C1 amended: a login against an existing account with no stored hash
always fails, but through the same `invalidPassword` branch used for a
password mismatch, and the caller observes the same `null` as for any other
failure — no distinguishable "unsupported login method" outcome exists. -/
theorem oauth_only_login_indistinguishable (db : DB) (c : Credentials) (u : User)
    (hm : c.email ≠ "") (hp : c.password ≠ "")
    (hfind : findUserByEmail db c.email = some u) (hpw : u.password = none) :
    authorize db c = .invalidPassword ∧ (authorize db c).toCaller = none := by
    have h : authorize db c = .invalidPassword := by
      simp [authorize, hm, hp, hfind, hpw]
    exact ⟨h, by rw [h]; rfl⟩

/-- Witness for the amended C1 on the concrete OAuth-only account. -/
theorem oauth_only_login_indistinguishable_witness :
    authorize
      [{ id := "u1", email := "oauth@x.com", password := none, name := none,
         image := none, emailVerified := none, birthday := none,
         phoneNumber := none, createdAt := 0, updatedAt := 0 }]
      ⟨"oauth@x.com", "whatever"⟩ = .invalidPassword ∧
    (authorize
      [{ id := "u1", email := "oauth@x.com", password := none, name := none,
         image := none, emailVerified := none, birthday := none,
         phoneNumber := none, createdAt := 0, updatedAt := 0 }]
      ⟨"oauth@x.com", "whatever"⟩).toCaller = none :=
  oauth_only_login_indistinguishable _ _ _ (by decide) (by decide) rfl rfl

/-- Injectivity of the modelled bcrypt hash: distinct plaintexts have
distinct hashes (collision-freedom, the library's contract). -/
theorem bcryptHash_inj {p q : String} (h : bcryptHash p = bcryptHash q) : p = q := by
  have hd := congrArg String.data h
  simp [bcryptHash, String.data_append] at hd
  exact String.ext hd

/-- C3 as stated is false at the edges created by the JS falsy check
`!credentials?.email || !credentials?.password`: an account whose stored hash
is the hash of the empty password rejects a login with that exact password
(it is treated as "missing credentials"), and likewise an account whose
email is the empty string can never log in. -/
theorem exact_password_login_counterexample :
    authorize
      [{ id := "u1", email := "a@b.com", password := some (bcryptHash ""),
         name := none, image := none, emailVerified := none, birthday := none,
         phoneNumber := none, createdAt := 0, updatedAt := 0 }]
      ⟨"a@b.com", ""⟩ = .missingCredentials ∧
    (authorize
      [{ id := "u1", email := "a@b.com", password := some (bcryptHash ""),
         name := none, image := none, emailVerified := none, birthday := none,
         phoneNumber := none, createdAt := 0, updatedAt := 0 }]
      ⟨"a@b.com", ""⟩).toCaller = none ∧
    authorize
      [{ id := "u2", email := "", password := some (bcryptHash "Abcdefg1"),
         name := none, image := none, emailVerified := none, birthday := none,
         phoneNumber := none, createdAt := 0, updatedAt := 0 }]
      ⟨"", "Abcdefg1"⟩ = .missingCredentials := by
  refine ⟨rfl, rfl, rfl⟩

/-- C3 amended: for every account with a nonempty email whose stored hash is
the hash of a nonempty plaintext (both always true of accounts created by
`auth.signup`, which requires a well-formed email and at least eight password
characters), login with that exact plaintext succeeds and returns the
identity record, while login with any other password string fails — the
caller receives `null`, and any nonempty wrong password goes through the
`invalidPassword` branch. -/
theorem exact_password_login (db : DB) (u : User) (p : String)
    (hm : u.email ≠ "") (hp : p ≠ "")
    (hfind : findUserByEmail db u.email = some u)
    (hpw : u.password = some (bcryptHash p)) :
    authorize db ⟨u.email, p⟩ =
      .success ⟨u.id, u.email, u.name, u.image, u.birthday, u.phoneNumber⟩ ∧
    ∀ q : String, q ≠ p →
      (authorize db ⟨u.email, q⟩).toCaller = none ∧
      (q ≠ "" → authorize db ⟨u.email, q⟩ = .invalidPassword) := by
  constructor
  · simp [authorize, hm, hp, hfind, hpw, bcryptCompare]
  · intro q hq
    by_cases hq0 : q = ""
    · subst hq0
      constructor
      · simp [authorize, AuthResult.toCaller]
      · intro h; exact absurd rfl h
    · have hcmp : bcryptCompare q (bcryptHash p) = false := by
        rw [bcryptCompare, beq_eq_false_iff_ne]
        intro heq
        exact hq (bcryptHash_inj heq).symm
      have hbranch : authorize db ⟨u.email, q⟩ = .invalidPassword := by
        simp [authorize, hm, hq0, hfind, hpw, hcmp]
      exact ⟨by rw [hbranch]; rfl, fun _ => hbranch⟩

/-- Witness for the amended C3 on a concrete credential account. -/
theorem exact_password_login_witness :
    authorize
      [{ id := "u1", email := "a@b.com", password := some (bcryptHash "Abcdefg1"),
         name := some "Ann", image := none, emailVerified := none,
         birthday := none, phoneNumber := none, createdAt := 0, updatedAt := 0 }]
      ⟨"a@b.com", "Abcdefg1"⟩ =
      .success ⟨"u1", "a@b.com", some "Ann", none, none, none⟩ ∧
    ∀ q : String, q ≠ "Abcdefg1" →
      (authorize
        [{ id := "u1", email := "a@b.com", password := some (bcryptHash "Abcdefg1"),
           name := some "Ann", image := none, emailVerified := none,
           birthday := none, phoneNumber := none, createdAt := 0, updatedAt := 0 }]
        ⟨"a@b.com", q⟩).toCaller = none ∧
      (q ≠ "" → authorize
        [{ id := "u1", email := "a@b.com", password := some (bcryptHash "Abcdefg1"),
           name := some "Ann", image := none, emailVerified := none,
           birthday := none, phoneNumber := none, createdAt := 0, updatedAt := 0 }]
        ⟨"a@b.com", q⟩ = .invalidPassword) :=
  exact_password_login
    [{ id := "u1", email := "a@b.com", password := some (bcryptHash "Abcdefg1"),
       name := some "Ann", image := none, emailVerified := none,
       birthday := none, phoneNumber := none, createdAt := 0, updatedAt := 0 }]
    { id := "u1", email := "a@b.com", password := some (bcryptHash "Abcdefg1"),
      name := some "Ann", image := none, emailVerified := none,
      birthday := none, phoneNumber := none, createdAt := 0, updatedAt := 0 }
    "Abcdefg1" (by decide) (by decide) rfl rfl

/-- C9 as stated is false: besides name, birthday and phoneNumber,
`db.user.update` also rewrites the Prisma-maintained `@updatedAt` column.
Concretely, updating only the name bumps `updatedAt` from 0 to 5. -/
theorem updateProfile_frame_counterexample :
    ((updateProfileProc
        (some { user := some { id := some "u1", email := none, name := none,
                               image := none, birthday := none, phoneNumber := none } })
        { name := some "Bob", birthday := none, phoneNumber := none }
        [{ id := "u1", email := "a@b.com", password := some "h", name := some "Ann",
           image := none, emailVerified := none, birthday := none,
           phoneNumber := none, createdAt := 0, updatedAt := 0 }]
        5).2.map User.updatedAt = [5]) ∧
    ([{ id := "u1", email := "a@b.com", password := some "h", name := some "Ann",
        image := none, emailVerified := none, birthday := none,
        phoneNumber := none, createdAt := 0, updatedAt := 0 }] :
      DB).map User.updatedAt = [0] := by
  constructor <;> rfl

/-- C9 amended: for every `user.updateProfile` call (authenticated or not),
the user table keeps its length and order; every row whose id is not the
session's user id is completely unchanged; and in the session user's own row
only `name`, `birthday`, `phoneNumber` (each exactly as requested, untouched
when not provided) and the Prisma-maintained `updatedAt` timestamp change —
`id`, `email`, `password`, `image`, `emailVerified` and `createdAt` are
always preserved. -/
theorem updateProfile_frame (sess : Option Session) (inp : UpdateProfileInput)
    (db : DB) (now : Nat) :
    (updateProfileProc sess inp db now).2.length = db.length ∧
    List.Forall₂ (fun v v' =>
      v'.id = v.id ∧ v'.email = v.email ∧ v'.password = v.password ∧
      v'.image = v.image ∧ v'.emailVerified = v.emailVerified ∧
      v'.createdAt = v.createdAt ∧
      (effectiveUserId sess ≠ some v.id → v' = v) ∧
      (effectiveUserId sess = some v.id →
        v'.name = (match inp.name with | none => v.name | some n => some n) ∧
        v'.birthday = (match inp.birthday with | none => v.birthday | some b => b) ∧
        v'.phoneNumber =
          (match inp.phoneNumber with | none => v.phoneNumber | some q => q) ∧
        v'.updatedAt = now))
      db (updateProfileProc sess inp db now).2 := by
  have hcases :
      ((updateProfileProc sess inp db now).2 = db ∧
        ∀ v ∈ db, effectiveUserId sess ≠ some v.id) ∨
      (∃ uid, effectiveUserId sess = some uid ∧
        (updateProfileProc sess inp db now).2 =
          db.map (fun v => if v.id = uid then applyProfileUpdate v inp now else v)) := by
    match hs : sess with
    | none => exact Or.inl ⟨rfl, fun v _ => by simp [effectiveUserId]⟩
    | some s =>
      match hu : s.user with
      | none =>
          refine Or.inl ⟨by simp [updateProfileProc, protectedCall, hu], ?_⟩
          intro v _
          simp [effectiveUserId, hu]
      | some su =>
        match hi : su.id with
        | none =>
            refine Or.inl ⟨by simp [updateProfileProc, protectedCall, hu,
              updateProfileBody, hi], ?_⟩
            intro v _
            simp [effectiveUserId, hu, hi]
        | some uid =>
          by_cases h0 : uid = ""
          · subst h0
            refine Or.inl ⟨by simp [updateProfileProc, protectedCall, hu,
              updateProfileBody, hi], ?_⟩
            intro v _
            simp [effectiveUserId, hu, hi]
          · have heff : effectiveUserId (some s) = some uid := by
              simp [effectiveUserId, hu, hi, h0]
            match hf : findUserById db uid with
            | none =>
                refine Or.inl ⟨by simp [updateProfileProc, protectedCall, hu,
                  updateProfileBody, hi, h0, dbUpdateUser, hf], ?_⟩
                intro v hv
                rw [heff]
                have hne := List.find?_eq_none.mp hf v hv
                intro he
                exact hne (by simp [Option.some.inj he])
            | some u =>
                refine Or.inr ⟨uid, heff, ?_⟩
                simp [updateProfileProc, protectedCall, hu, updateProfileBody,
                  hi, h0, dbUpdateUser, hf]
  rcases hcases with ⟨heq, hno⟩ | ⟨uid, heff, heq⟩
  · rw [heq]
    refine ⟨rfl, List.forall₂_same.mpr ?_⟩
    intro v hv
    exact ⟨rfl, rfl, rfl, rfl, rfl, rfl, fun _ => rfl,
           fun h => absurd h (hno v hv)⟩
  · rw [heq]
    refine ⟨List.length_map _ _, ?_⟩
    rw [List.forall₂_map_right_iff]
    refine List.forall₂_same.mpr ?_
    intro v _
    by_cases hvid : v.id = uid
    · refine ⟨by simp [hvid, applyProfileUpdate], by simp [hvid, applyProfileUpdate],
        by simp [hvid, applyProfileUpdate], by simp [hvid, applyProfileUpdate],
        by simp [hvid, applyProfileUpdate], by simp [hvid, applyProfileUpdate],
        ?_, ?_⟩
      · intro hne
        exact absurd (by rw [heff, hvid]) hne
      · intro _
        simp [hvid, applyProfileUpdate]
    · refine ⟨by simp [hvid], by simp [hvid], by simp [hvid], by simp [hvid],
        by simp [hvid], by simp [hvid], fun _ => by simp [hvid], ?_⟩
      intro h
      rw [heff] at h
      exact absurd (Option.some.injEq _ _ ▸ h).symm hvid

/-- Witness for the amended C9 on a concrete two-row table: the session
user's row changes name/birthday/updatedAt only, the other row not at all. -/
theorem updateProfile_frame_witness :
    ((updateProfileProc
        (some { user := some { id := some "u1", email := none, name := none,
                               image := none, birthday := none, phoneNumber := none } })
        { name := some "Bob", birthday := some (some 19990101), phoneNumber := none }
        [{ id := "u1", email := "a@b.com", password := some "h", name := some "Ann",
           image := none, emailVerified := none, birthday := none,
           phoneNumber := none, createdAt := 0, updatedAt := 0 },
         { id := "u2", email := "c@d.com", password := none, name := some "Cem",
           image := none, emailVerified := none, birthday := some 1,
           phoneNumber := some "+1 5550000000", createdAt := 0, updatedAt := 0 }]
        7).2.length =
      ([{ id := "u1", email := "a@b.com", password := some "h", name := some "Ann",
          image := none, emailVerified := none, birthday := none,
          phoneNumber := none, createdAt := 0, updatedAt := 0 },
        { id := "u2", email := "c@d.com", password := none, name := some "Cem",
          image := none, emailVerified := none, birthday := some 1,
          phoneNumber := some "+1 5550000000", createdAt := 0, updatedAt := 0 }] :
        DB).length) ∧
    List.Forall₂ (fun v v' =>
      v'.id = v.id ∧ v'.email = v.email ∧ v'.password = v.password ∧
      v'.image = v.image ∧ v'.emailVerified = v.emailVerified ∧
      v'.createdAt = v.createdAt ∧
      (effectiveUserId
          (some { user := some { id := some "u1", email := none, name := none,
                                 image := none, birthday := none,
                                 phoneNumber := none } }) ≠ some v.id → v' = v) ∧
      (effectiveUserId
          (some { user := some { id := some "u1", email := none, name := none,
                                 image := none, birthday := none,
                                 phoneNumber := none } }) = some v.id →
        v'.name = (match (some "Bob" : Option String) with
                   | none => v.name | some n => some n) ∧
        v'.birthday = (match (some (some 19990101) : Option (Option Nat)) with
                       | none => v.birthday | some b => b) ∧
        v'.phoneNumber = (match (none : Option (Option String)) with
                          | none => v.phoneNumber | some q => q) ∧
        v'.updatedAt = 7))
      [{ id := "u1", email := "a@b.com", password := some "h", name := some "Ann",
         image := none, emailVerified := none, birthday := none,
         phoneNumber := none, createdAt := 0, updatedAt := 0 },
       { id := "u2", email := "c@d.com", password := none, name := some "Cem",
         image := none, emailVerified := none, birthday := some 1,
         phoneNumber := some "+1 5550000000", createdAt := 0, updatedAt := 0 }]
      (updateProfileProc
        (some { user := some { id := some "u1", email := none, name := none,
                               image := none, birthday := none, phoneNumber := none } })
        { name := some "Bob", birthday := some (some 19990101), phoneNumber := none }
        [{ id := "u1", email := "a@b.com", password := some "h", name := some "Ann",
           image := none, emailVerified := none, birthday := none,
           phoneNumber := none, createdAt := 0, updatedAt := 0 },
         { id := "u2", email := "c@d.com", password := none, name := some "Cem",
           image := none, emailVerified := none, birthday := some 1,
           phoneNumber := some "+1 5550000000", createdAt := 0, updatedAt := 0 }]
        7).2 :=
  updateProfile_frame
    (some { user := some { id := some "u1", email := none, name := none,
                           image := none, birthday := none, phoneNumber := none } })
    { name := some "Bob", birthday := some (some 19990101), phoneNumber := none }
    [{ id := "u1", email := "a@b.com", password := some "h", name := some "Ann",
       image := none, emailVerified := none, birthday := none,
       phoneNumber := none, createdAt := 0, updatedAt := 0 },
     { id := "u2", email := "c@d.com", password := none, name := some "Cem",
       image := none, emailVerified := none, birthday := some 1,
       phoneNumber := some "+1 5550000000", createdAt := 0, updatedAt := 0 }]
    7

/-- C7: A session token's birthday and phone-number claims are the values
denormalized at issuance: after a `user.updateProfile` call that stores new
values, the already-issued token still carries the old claims (and so does
the session object derived from it), while the new values are visible
through a re-fetch (`getProfile`) or through any token issued by a fresh
login after the update. -/
theorem session_claims_stale (db : DB) (u : User) (p : String)
    (bNew : Option Nat) (phNew : Option String) (now : Nat)
    (hm : u.email ≠ "") (hp : p ≠ "") (hid : u.id ≠ "")
    (hfind : findUserByEmail db u.email = some u)
    (hidf : findUserById db u.id = some u)
    (hpw : u.password = some (bcryptHash p)) :
    ∃ t : Token,
      loginIssueToken db ⟨u.email, p⟩ = some t ∧
      t.birthday = u.birthday ∧ t.phoneNumber = u.phoneNumber ∧
      (sessionCallback t).user.map SessionUser.birthday = some u.birthday ∧
      (sessionCallback t).user.map SessionUser.phoneNumber = some u.phoneNumber ∧
      ((getProfile ((updateProfileProc (some (sessionCallback t))
          ⟨none, some bNew, some phNew⟩ db now).2) u.id).map ProfileView.birthday
        = some bNew) ∧
      ((getProfile ((updateProfileProc (some (sessionCallback t))
          ⟨none, some bNew, some phNew⟩ db now).2) u.id).map ProfileView.phoneNumber
        = some phNew) ∧
      (∀ t₂ : Token,
        loginIssueToken ((updateProfileProc (some (sessionCallback t))
          ⟨none, some bNew, some phNew⟩ db now).2) ⟨u.email, p⟩ = some t₂ →
        t₂.birthday = bNew ∧ t₂.phoneNumber = phNew) := by
  have hauth : authorize db ⟨u.email, p⟩ =
      .success ⟨u.id, u.email, u.name, u.image, u.birthday, u.phoneNumber⟩ := by
    simp [authorize, hm, hp, hfind, hpw, bcryptCompare]
  refine ⟨jwtCallback Token.initial
      (some ⟨u.id, u.email, u.name, u.image, u.birthday, u.phoneNumber⟩),
      by simp [loginIssueToken, hauth], rfl, rfl, rfl, rfl, ?_⟩
  have hdb2 : (updateProfileProc
      (some (sessionCallback (jwtCallback Token.initial
        (some ⟨u.id, u.email, u.name, u.image, u.birthday, u.phoneNumber⟩))))
      ⟨none, some bNew, some phNew⟩ db now).2 =
      db.map (fun v => if v.id = u.id
        then applyProfileUpdate v ⟨none, some bNew, some phNew⟩ now else v) := by
    simp [updateProfileProc, protectedCall, sessionCallback, jwtCallback,
      Token.initial, updateProfileBody, hid, dbUpdateUser, hidf]
  have hidpres : ∀ v : User,
      (if v.id = u.id
        then applyProfileUpdate v ⟨none, some bNew, some phNew⟩ now else v).id
        = v.id := by
    intro v
    by_cases h : v.id = u.id <;> simp [h, applyProfileUpdate]
  have hfindid2 : findUserById
      (db.map (fun v => if v.id = u.id
        then applyProfileUpdate v ⟨none, some bNew, some phNew⟩ now else v)) u.id
      = some (applyProfileUpdate u ⟨none, some bNew, some phNew⟩ now) := by
    rw [findUserById, List.find?_map]
    have hfun : ((fun x : User => x.id == u.id) ∘
        (fun v => if v.id = u.id
          then applyProfileUpdate v ⟨none, some bNew, some phNew⟩ now else v))
        = fun v : User => v.id == u.id := by
      funext v
      simp [Function.comp, hidpres v]
    have hidf2 : List.find? (fun v : User => v.id == u.id) db = some u := hidf
    rw [hfun, hidf2]
    simp
  have hempres : ∀ v : User,
      (if v.id = u.id
        then applyProfileUpdate v ⟨none, some bNew, some phNew⟩ now else v).email
        = v.email := by
    intro v
    by_cases h : v.id = u.id <;> simp [h, applyProfileUpdate]
  have hfindem2 : findUserByEmail
      (db.map (fun v => if v.id = u.id
        then applyProfileUpdate v ⟨none, some bNew, some phNew⟩ now else v)) u.email
      = some (applyProfileUpdate u ⟨none, some bNew, some phNew⟩ now) := by
    rw [findUserByEmail, List.find?_map]
    have hfun : ((fun x : User => x.email == u.email) ∘
        (fun v => if v.id = u.id
          then applyProfileUpdate v ⟨none, some bNew, some phNew⟩ now else v))
        = fun v : User => v.email == u.email := by
      funext v
      simp [Function.comp, hempres v]
    have hfind2 : List.find? (fun v : User => v.email == u.email) db = some u := hfind
    rw [hfun, hfind2]
    simp
  refine ⟨?_, ?_, ?_⟩
  · rw [hdb2]
    simp only [getProfile, hfindid2]
    simp [applyProfileUpdate]
  · rw [hdb2]
    simp only [getProfile, hfindid2]
    simp [applyProfileUpdate]
  · intro t₂ ht₂
    rw [hdb2] at ht₂
    have hauth2 : authorize
        (db.map (fun v => if v.id = u.id
          then applyProfileUpdate v ⟨none, some bNew, some phNew⟩ now else v))
        ⟨u.email, p⟩ =
        .success ⟨u.id, u.email, u.name, u.image, bNew, phNew⟩ := by
      simp only [authorize]
      rw [if_neg (not_or.mpr ⟨hm, hp⟩), hfindem2]
      simp [applyProfileUpdate, hpw, bcryptCompare]
    rw [loginIssueToken, hauth2] at ht₂
    cases ht₂
    exact ⟨rfl, rfl⟩

/-- Witness for C7 on a concrete account whose birthday is updated from
`none` to `some 19990101` after the token was issued. -/
theorem session_claims_stale_witness :
    ∃ t : Token,
      loginIssueToken
        [{ id := "u1", email := "a@b.com", password := some (bcryptHash "Abcdefg1"),
           name := some "Ann", image := none, emailVerified := none,
           birthday := none, phoneNumber := none, createdAt := 0, updatedAt := 0 }]
        ⟨"a@b.com", "Abcdefg1"⟩ = some t ∧
      t.birthday = none ∧
      t.phoneNumber = none ∧
      (sessionCallback t).user.map SessionUser.birthday = some none ∧
      (sessionCallback t).user.map SessionUser.phoneNumber = some none ∧
      ((getProfile ((updateProfileProc (some (sessionCallback t))
          ⟨none, some (some 19990101), some (some "+1 5551234567")⟩
          [{ id := "u1", email := "a@b.com", password := some (bcryptHash "Abcdefg1"),
             name := some "Ann", image := none, emailVerified := none,
             birthday := none, phoneNumber := none, createdAt := 0, updatedAt := 0 }]
          9).2) "u1").map ProfileView.birthday = some (some 19990101)) ∧
      ((getProfile ((updateProfileProc (some (sessionCallback t))
          ⟨none, some (some 19990101), some (some "+1 5551234567")⟩
          [{ id := "u1", email := "a@b.com", password := some (bcryptHash "Abcdefg1"),
             name := some "Ann", image := none, emailVerified := none,
             birthday := none, phoneNumber := none, createdAt := 0, updatedAt := 0 }]
          9).2) "u1").map ProfileView.phoneNumber = some (some "+1 5551234567")) ∧
      (∀ t₂ : Token,
        loginIssueToken ((updateProfileProc (some (sessionCallback t))
          ⟨none, some (some 19990101), some (some "+1 5551234567")⟩
          [{ id := "u1", email := "a@b.com", password := some (bcryptHash "Abcdefg1"),
             name := some "Ann", image := none, emailVerified := none,
             birthday := none, phoneNumber := none, createdAt := 0, updatedAt := 0 }]
          9).2) ⟨"a@b.com", "Abcdefg1"⟩ = some t₂ →
        t₂.birthday = some 19990101 ∧ t₂.phoneNumber = some "+1 5551234567") :=
  session_claims_stale
    [{ id := "u1", email := "a@b.com", password := some (bcryptHash "Abcdefg1"),
       name := some "Ann", image := none, emailVerified := none,
       birthday := none, phoneNumber := none, createdAt := 0, updatedAt := 0 }]
    { id := "u1", email := "a@b.com", password := some (bcryptHash "Abcdefg1"),
      name := some "Ann", image := none, emailVerified := none,
      birthday := none, phoneNumber := none, createdAt := 0, updatedAt := 0 }
    "Abcdefg1" (some 19990101) (some "+1 5551234567") 9
    (by decide) (by decide) (by decide) rfl rfl rfl

/-- Advancing from a non-final step lands exactly one position further in the
fixed order. -/
theorem stepIdx_next (st : Step) (h : stepIdx st < 6) :
    stepIdx (stepsOrder.getD (stepIdx st + 1) st) = stepIdx st + 1 := by
  cases st <;> first | rfl | exact absurd h (by decide)

/-- Going back from a non-initial step lands exactly one position earlier. -/
theorem stepIdx_prev (st : Step) :
    stepIdx (stepsOrder.getD (stepIdx st - 1) st) = stepIdx st - 1 := by
  cases st <;> rfl

/-- The per-step data conditions ignore the current step. -/
theorem dataOk_set_step (s : WizardState) (x : Step) (k : Nat) :
    dataOk { s with step := x } k ↔ dataOk s k := by
  rcases k with _ | _ | _ | _ | _ | _ | k <;> exact Iff.rfl

/-- An enabled Continue control certifies the current step's required
fields. -/
theorem continue_dataOk (s : WizardState) (hg : continueEnabled s = true) :
    dataOk s (stepIdx s.step) := by
  cases hs : s.step
  case welcome => trivial
  case categories =>
      simp only [continueEnabled, hs, Bool.not_eq_true'] at hg
      simpa [dataOk] using hg
  case itemDetails =>
      simp only [continueEnabled, hs, Bool.and_eq_true, Bool.not_eq_true'] at hg
      simp only [stepIdx, dataOk]
      exact ⟨by simp [hg.1], by simp [hg.2]⟩
  case pricing =>
      simp only [continueEnabled, hs] at hg
      cases hr : s.rentPerDay with
      | none => rw [hr] at hg; cases hg
      | some q =>
          rw [hr] at hg
          exact ⟨q, hr, of_decide_eq_true hg⟩
  case photos =>
      simp only [continueEnabled, hs] at hg
      show 3 ≤ uploadedCount s
      exact of_decide_eq_true hg
  case location =>
      simp only [continueEnabled, hs] at hg
      exact hg
  case review =>
      simp only [continueEnabled, hs] at hg
      cases hg

/-- Every wizard event preserves the prior-steps invariant. -/
theorem stepEvent_priorStepsOk (s : WizardState) (e : WEvent)
    (h : priorStepsOk s) : priorStepsOk (stepEvent s e) := by
  cases e with
  | next =>
      simp only [stepEvent]
      split_ifs with hg
      · obtain ⟨hlt, hen⟩ := hg
        intro k hk
        dsimp only at hk
        rw [stepIdx_next s.step hlt] at hk
        rcases Nat.lt_succ_iff_lt_or_eq.mp hk with hlt2 | heq
        · exact (dataOk_set_step _ _ _).mpr (h k hlt2)
        · subst heq
          exact (dataOk_set_step _ _ _).mpr (continue_dataOk s hen)
      · exact h
  | prev =>
      simp only [stepEvent]
      split_ifs with hg
      · intro k hk
        dsimp only at hk
        rw [stepIdx_prev s.step] at hk
        exact (dataOk_set_step _ _ _).mpr (h k (lt_of_lt_of_le hk (Nat.sub_le _ _)))
      · exact h
  | toggleCategory c =>
      simp only [stepEvent]
      split_ifs with hg
      · intro k hk
        dsimp only at hk
        rw [hg] at hk
        rcases k with _ | k
        · trivial
        · exact absurd hk (by simp [stepIdx])
      · exact h
  | setItemName v =>
      simp only [stepEvent]
      split_ifs with hg
      · intro k hk
        dsimp only at hk
        rw [hg] at hk
        rcases k with _ | _ | k
        · trivial
        · exact h 1 (by rw [hg]; decide)
        · exact absurd hk (by simp [stepIdx])
      · exact h
  | setDescription v =>
      simp only [stepEvent]
      split_ifs with hg
      · intro k hk
        dsimp only at hk
        rw [hg] at hk
        rcases k with _ | _ | k
        · trivial
        · exact h 1 (by rw [hg]; decide)
        · exact absurd hk (by simp [stepIdx])
      · exact h
  | setRent v =>
      simp only [stepEvent]
      split_ifs with hg
      · intro k hk
        dsimp only at hk
        rw [hg] at hk
        rcases k with _ | _ | _ | k
        · trivial
        · exact h 1 (by rw [hg]; decide)
        · exact h 2 (by rw [hg]; decide)
        · exact absurd hk (by simp [stepIdx])
      · exact h
  | setPhoto i f =>
      simp only [stepEvent]
      split_ifs with hg
      · intro k hk
        dsimp only at hk
        rw [hg] at hk
        rcases k with _ | _ | _ | _ | k
        · trivial
        · exact h 1 (by rw [hg]; decide)
        · exact h 2 (by rw [hg]; decide)
        · exact h 3 (by rw [hg]; decide)
        · exact absurd hk (by simp [stepIdx])
      · exact h
  | removePhoto i =>
      simp only [stepEvent]
      split_ifs with hg
      · intro k hk
        dsimp only at hk
        rw [hg] at hk
        rcases k with _ | _ | _ | _ | k
        · trivial
        · exact h 1 (by rw [hg]; decide)
        · exact h 2 (by rw [hg]; decide)
        · exact h 3 (by rw [hg]; decide)
        · exact absurd hk (by simp [stepIdx])
      · exact h
  | pickLocation l =>
      simp only [stepEvent]
      split_ifs with hg
      · intro k hk
        dsimp only at hk
        rw [hg] at hk
        rcases k with _ | _ | _ | _ | _ | k
        · trivial
        · exact h 1 (by rw [hg]; decide)
        · exact h 2 (by rw [hg]; decide)
        · exact h 3 (by rw [hg]; decide)
        · exact h 4 (by rw [hg]; decide)
        · exact absurd hk (by simp [stepIdx])
      · exact h
  | geoLocate l =>
      intro k hk
      dsimp only [stepEvent] at hk ⊢
      rcases k with _ | _ | _ | _ | _ | _ | k
      · trivial
      · exact h 1 hk
      · exact h 2 hk
      · exact h 3 hk
      · exact h 4 hk
      · rfl
      · trivial
  | refreshAddress a =>
      intro k hk
      dsimp only [stepEvent] at hk ⊢
      rcases k with _ | _ | _ | _ | _ | _ | k
      · trivial
      · exact h 1 hk
      · exact h 2 hk
      · exact h 3 hk
      · exact h 4 hk
      · have h5 := h 5 hk
        simpa [dataOk] using h5
      · trivial
  | submit =>
      simp only [stepEvent]
      split_ifs with hg
      · intro k hk
        exact absurd hk (by simp [initWizard, stepIdx])
      · exact h

/-- Every reachable wizard state satisfies the prior-steps invariant. -/
theorem reachable_priorStepsOk {s : WizardState} (h : ReachableW s) :
    priorStepsOk s := by
  induction h with
  | init => intro k hk; exact absurd hk (by simp [initWizard, stepIdx])
  | step e _ ih => exact stepEvent_priorStepsOk _ e ih

/-- The switch renders exactly the view of the current step. -/
theorem renderedViews_eq (s : WizardState) : renderedViews s = [s.step] := by
  cases hs : s.step <;> simp [renderedViews, renderCurrentStep, hs]

/-- Each event moves the step index up by at most one, and any forward move
is the `next` event with the Continue gate enabled, landing on the successor
in the fixed order. -/
theorem stepEvent_forward (s : WizardState) (e : WEvent) :
    stepIdx (stepEvent s e).step ≤ stepIdx s.step + 1 ∧
    (stepIdx s.step < stepIdx (stepEvent s e).step →
      e = .next ∧ continueEnabled s = true ∧
      (stepEvent s e).step = stepsOrder.getD (stepIdx s.step + 1) s.step) := by
  cases e with
  | next =>
      simp only [stepEvent]
      split_ifs with hg
      · obtain ⟨hlt, hen⟩ := hg
        dsimp only
        rw [stepIdx_next s.step hlt]
        exact ⟨le_refl _, fun _ => ⟨trivial, hen, rfl⟩⟩
      · exact ⟨Nat.le_succ _, fun hcon => absurd hcon (lt_irrefl _)⟩
  | prev =>
      simp only [stepEvent]
      split_ifs with hg
      · dsimp only
        rw [stepIdx_prev s.step]
        exact ⟨by omega, fun hcon => absurd hcon (by omega)⟩
      · exact ⟨Nat.le_succ _, fun hcon => absurd hcon (lt_irrefl _)⟩
  | submit =>
      simp only [stepEvent]
      split_ifs with hg
      · rw [hg]
        refine ⟨?_, ?_⟩
        · show stepIdx initWizard.step ≤ 6 + 1
          simp [initWizard, stepIdx]
        · intro hcon
          rw [show stepIdx initWizard.step = 0 from rfl] at hcon
          exact absurd hcon (by simp [stepIdx])
      · exact ⟨Nat.le_succ _, fun hcon => absurd hcon (lt_irrefl _)⟩
  | toggleCategory c =>
      simp only [stepEvent]
      split_ifs <;> exact ⟨Nat.le_succ _, fun hcon => absurd hcon (lt_irrefl _)⟩
  | setItemName v =>
      simp only [stepEvent]
      split_ifs <;> exact ⟨Nat.le_succ _, fun hcon => absurd hcon (lt_irrefl _)⟩
  | setDescription v =>
      simp only [stepEvent]
      split_ifs <;> exact ⟨Nat.le_succ _, fun hcon => absurd hcon (lt_irrefl _)⟩
  | setRent v =>
      simp only [stepEvent]
      split_ifs <;> exact ⟨Nat.le_succ _, fun hcon => absurd hcon (lt_irrefl _)⟩
  | setPhoto i f =>
      simp only [stepEvent]
      split_ifs <;> exact ⟨Nat.le_succ _, fun hcon => absurd hcon (lt_irrefl _)⟩
  | removePhoto i =>
      simp only [stepEvent]
      split_ifs <;> exact ⟨Nat.le_succ _, fun hcon => absurd hcon (lt_irrefl _)⟩
  | pickLocation l =>
      simp only [stepEvent]
      split_ifs <;> exact ⟨Nat.le_succ _, fun hcon => absurd hcon (lt_irrefl _)⟩
  | geoLocate l =>
      exact ⟨Nat.le_succ _, fun hcon => absurd hcon (lt_irrefl _)⟩
  | refreshAddress a =>
      exact ⟨Nat.le_succ _, fun hcon => absurd hcon (lt_irrefl _)⟩

/-- Any event run from a reachable state stays reachable. -/
theorem reachable_runWizard (es : List WEvent) : ReachableW (runWizard es) := by
  suffices hgen : ∀ (s : WizardState), ReachableW s →
      ReachableW (es.foldl stepEvent s) by
    exact hgen initWizard ReachableW.init
  induction es with
  | nil => intro s hs; exact hs
  | cons e es ih => intro s hs; exact ih (stepEvent s e) (ReachableW.step e hs)

/-- C8: In every reachable wizard state, exactly one step view is rendered
(that of the current step); events move the step index forward by at most
one, and any forward move is the `next` event through an enabled gate onto
the successor in the fixed order welcome, categories, item-details, pricing,
photos, location, review; and whenever the review step (the only one whose
view offers submission) is reached, at least one category is selected, the
trimmed item name and description are non-blank, the price parses to a value
strictly greater than zero, at least three photos are uploaded, and a
location is set. -/
theorem wizard_step_machine (s : WizardState) (h : ReachableW s) :
    (renderedViews s = [s.step] ∧ (renderedViews s).length = 1) ∧
    (∀ e : WEvent,
      stepIdx (stepEvent s e).step ≤ stepIdx s.step + 1 ∧
      (stepIdx s.step < stepIdx (stepEvent s e).step →
        e = .next ∧ continueEnabled s = true ∧
        (stepEvent s e).step = stepsOrder.getD (stepIdx s.step + 1) s.step)) ∧
    (s.step = .review →
      s.selectedCategories ≠ [] ∧
      ¬ (jsTrim s.itemName).isEmpty ∧ ¬ (jsTrim s.description).isEmpty ∧
      (∃ q, s.rentPerDay = some q ∧ 0 < q) ∧
      3 ≤ uploadedCount s ∧ s.location.isSome = true) := by
  refine ⟨⟨renderedViews_eq s, by rw [renderedViews_eq s]; rfl⟩,
    fun e => stepEvent_forward s e, ?_⟩
  intro hrev
  have hpso := reachable_priorStepsOk h
  have h1 := hpso 1 (by rw [hrev]; decide)
  have h2 := hpso 2 (by rw [hrev]; decide)
  have h3 := hpso 3 (by rw [hrev]; decide)
  have h4 := hpso 4 (by rw [hrev]; decide)
  have h5 := hpso 5 (by rw [hrev]; decide)
  exact ⟨h1, h2.1, h2.2, h3, h4, h5⟩

/-- Witness for C8: the demo interaction reaches the review step, and the
reachable-state invariants hold there. -/
theorem wizard_step_machine_witness :
    (runWizard demoWizardEvents).step = Step.review ∧
    ((renderedViews (runWizard demoWizardEvents) =
        [(runWizard demoWizardEvents).step] ∧
      (renderedViews (runWizard demoWizardEvents)).length = 1) ∧
    (∀ e : WEvent,
      stepIdx (stepEvent (runWizard demoWizardEvents) e).step ≤
        stepIdx (runWizard demoWizardEvents).step + 1 ∧
      (stepIdx (runWizard demoWizardEvents).step <
          stepIdx (stepEvent (runWizard demoWizardEvents) e).step →
        e = .next ∧ continueEnabled (runWizard demoWizardEvents) = true ∧
        (stepEvent (runWizard demoWizardEvents) e).step =
          stepsOrder.getD (stepIdx (runWizard demoWizardEvents).step + 1)
            (runWizard demoWizardEvents).step)) ∧
    ((runWizard demoWizardEvents).step = .review →
      (runWizard demoWizardEvents).selectedCategories ≠ [] ∧
      ¬ (jsTrim (runWizard demoWizardEvents).itemName).isEmpty ∧
      ¬ (jsTrim (runWizard demoWizardEvents).description).isEmpty ∧
      (∃ q, (runWizard demoWizardEvents).rentPerDay = some q ∧ 0 < q) ∧
      3 ≤ uploadedCount (runWizard demoWizardEvents) ∧
      (runWizard demoWizardEvents).location.isSome = true)) :=
  ⟨by decide,
   wizard_step_machine (runWizard demoWizardEvents)
     (reachable_runWizard demoWizardEvents)⟩

end Rental
